import Mathlib

/-!
Verification of the sizing-calculation core of the Annur Tech solar planner
(`Solar_App.py`). All currency and physical quantities are modelled as
rationals; the Python helper functions are shallowly embedded, keeping their
names, argument order and guard structure. Helpers that signal invalid
parameters by returning Python `None` are embedded as `Option ℚ`.
-/

/-- One appliance line item as entered in the load-audit form
(`name, watt, qty, hours` keys of the dicts in `st.session_state.loads`). -/
structure LoadItem where
  name : String
  watt : ℚ
  qty : ℚ
  hours : ℚ

/-- One row of the computed loads table: the input fields plus the derived
`total_w = watt * qty` and `daily_Wh = total_w * hours`. -/
structure LoadRow where
  name : String
  watt : ℚ
  qty : ℚ
  hours : ℚ
  total_w : ℚ
  daily_Wh : ℚ

/-- Lines 34-50, `compute_loads_df`: builds the loads table. An empty item
list gives the empty table; otherwise one row per item with the derived
totals. -/
def compute_loads_df (items : List LoadItem) : List LoadRow :=
  items.map (fun it =>
    { name := it.name, watt := it.watt, qty := it.qty, hours := it.hours,
      total_w := it.watt * it.qty, daily_Wh := it.watt * it.qty * it.hours })

/-- Line 139 / 159, `df_loads["total_w"].sum()`: total instantaneous load. -/
def sum_total_w (df : List LoadRow) : ℚ :=
  (df.map LoadRow.total_w).sum

/-- Line 140 / 199, `df_loads["daily_Wh"].sum()`: total daily energy. -/
def sum_daily_Wh (df : List LoadRow) : ℚ :=
  (df.map LoadRow.daily_Wh).sum

/-- Lines 52-55, `energy_required_for_backup`: Wh required from the battery,
`(total_w * backup_hours) / inverter_eff` (Python default 0.95). There is no
positivity check on `inverter_eff`. -/
def energy_required_for_backup (total_w backup_hours inverter_eff : ℚ) : ℚ :=
  (total_w * backup_hours) / inverter_eff

/-- Lines 57-61, `battery_ah_for_voltage`: `None` when `battery_voltage <= 0`
or `dod <= 0`, otherwise `energy_wh / (battery_voltage * dod)`. -/
def battery_ah_for_voltage (energy_wh battery_voltage dod : ℚ) : Option ℚ :=
  if battery_voltage ≤ 0 ∨ dod ≤ 0 then none
  else some (energy_wh / (battery_voltage * dod))

/-- Lines 63-66, `num_battery_units`: `None` when the unit capacity is Python
`None` or `<= 0`, otherwise the real-valued quotient `ah_required /
unit_capacity_ah`. -/
def num_battery_units (ah_required : ℚ) (unit_capacity_ah : Option ℚ) : Option ℚ :=
  match unit_capacity_ah with
  | none => none
  | some c => if c ≤ 0 then none else some (ah_required / c)

/-- Lines 68-72, `pv_power_to_charge_energy`: `None` when `desired_hours <= 0`,
otherwise `energy_wh / (desired_hours * system_eff)` (Python default 0.75).
There is no positivity check on `system_eff`. -/
def pv_power_to_charge_energy (energy_wh desired_hours system_eff : ℚ) : Option ℚ :=
  if desired_hours ≤ 0 then none
  else some (energy_wh / (desired_hours * system_eff))

/-- Lines 74-76, `pv_power_from_sunhours`: delegates to
`pv_power_to_charge_energy` with `sun_hours` as the window. -/
def pv_power_from_sunhours (energy_wh sun_hours system_eff : ℚ) : Option ℚ :=
  pv_power_to_charge_energy energy_wh sun_hours system_eff

/-- Lines 78-79, `panels_needed_from_pv_power`: real-valued panel count. -/
def panels_needed_from_pv_power (pv_power_w panel_w : ℚ) : ℚ :=
  pv_power_w / panel_w

/-- Lines 81-85, `mppt_current_for_pv`: `None` when `battery_voltage <= 0`,
otherwise `(pv_power_w / battery_voltage) * safety_factor` (default 1.25). -/
def mppt_current_for_pv (pv_power_w battery_voltage safety_factor : ℚ) : Option ℚ :=
  if battery_voltage ≤ 0 then none
  else some ((pv_power_w / battery_voltage) * safety_factor)

/-- Lines 87-89, `recommend_inverter`: `max(total_w * 1.3, 1000)`. -/
def recommend_inverter (total_w : ℚ) : ℚ :=
  max (total_w * (13 / 10)) 1000

/-- Failure kinds surfaced by the page when a computation cannot run. -/
inductive SizingError where
  | EmptyLoadSet
  deriving DecidableEq

/-- Lines 149-188: the backup and battery section runs the sizing chain only
when the session load list is non-empty (`len(st.session_state.loads) > 0`);
with an empty list it instead shows the prompt to add loads first, modelled
as an `EmptyLoadSet` failure. On the non-empty branch it computes the energy
required from the battery exactly as line 160 does. -/
def backup_section (loads : List LoadItem) (backup_hours inverter_eff : ℚ) :
    Except SizingError ℚ :=
  if loads.length > 0 then
    Except.ok (energy_required_for_backup
      (sum_total_w (compute_loads_df loads)) backup_hours inverter_eff)
  else
    Except.error SizingError.EmptyLoadSet

/-- Line 240: example panel unit price in Naira. -/
def avg_panel_price : ℚ := 100000

/-- Line 241: example battery unit price in Naira. -/
def avg_battery_price : ℚ := 250000

/-- Line 242: example inverter price in Naira. -/
def avg_inverter_price : ℚ := 200000

/-- Line 243, `est_panels = math.ceil(panels_needed) if 'panels_needed' in
locals() else 0`: on the page shown with a non-empty load list,
`panels_needed` is always assigned (line 220), so the ceiling branch runs. -/
def est_panels (panels_needed : ℚ) : ℤ :=
  ⌈panels_needed⌉

/-- Line 244, `est_batteries = math.ceil(num_batteries) if 'num_batteries' in
locals() else 0`: the name `num_batteries` is never assigned anywhere in the
script (the battery-unit count is computed as `n_units` on line 184), so the
membership test is always false and the else branch yields 0. -/
def est_batteries : ℤ := 0

/-- Line 245: the inverter cost is the flat example price. -/
def est_inverter_cost : ℚ := avg_inverter_price

/-- Line 246: solar cost, purchased panel count times panel price. -/
def est_solar_cost (panels_needed : ℚ) : ℚ :=
  (est_panels panels_needed : ℚ) * avg_panel_price

/-- Line 247: battery cost, `est_batteries * avg_battery_price`. -/
def est_battery_cost : ℚ :=
  (est_batteries : ℚ) * avg_battery_price

/-- Line 248: estimated total, the three component costs plus a flat 150000. -/
def est_total (panels_needed : ℚ) : ℚ :=
  est_solar_cost panels_needed + est_battery_cost + est_inverter_cost + 150000

/-- C3: aggregating an empty load list yields total instantaneous watts 0 and
total daily energy 0, and the backup-sizing section on an empty load list
fails with `EmptyLoadSet` (the add-loads prompt) for every choice of backup
hours and inverter efficiency, rather than sizing a zero-load system. -/
theorem c3_empty_loads :
    sum_total_w (compute_loads_df []) = 0 ∧
    sum_daily_Wh (compute_loads_df []) = 0 ∧
    ∀ backup_hours inverter_eff : ℚ,
      backup_section [] backup_hours inverter_eff =
        Except.error SizingError.EmptyLoadSet := by
  refine ⟨rfl, rfl, ?_⟩
  intro backup_hours inverter_eff
  rfl

/-- C5: for every total load, backup-hours value and inverter efficiency in
(0, 1], the energy required from storage is
`(total_w * backup_hours) / inverter_eff`; at 600 W, 5 h, efficiency 0.95 the
value 60000/19 is within 0.1 of 3157.9 Wh. -/
theorem c5_energy_formula (total_w backup_hours inverter_eff : ℚ)
    (hpos : 0 < inverter_eff) (hle : inverter_eff ≤ 1) :
    energy_required_for_backup total_w backup_hours inverter_eff =
      (total_w * backup_hours) / inverter_eff ∧
    energy_required_for_backup 600 5 (19 / 20) = 60000 / 19 ∧
    |energy_required_for_backup 600 5 (19 / 20) - 31579 / 10| < 1 / 10 := by
  refine ⟨rfl, by norm_num [energy_required_for_backup], ?_⟩
  rw [energy_required_for_backup]
  rw [abs_sub_lt_iff]
  norm_num

/-- Witness for C5 at total load 600 W, 5 backup hours, efficiency 19/20. -/
theorem c5_energy_formula_witness :
    (0 : ℚ) < 19 / 20 ∧ (19 : ℚ) / 20 ≤ 1 ∧
    energy_required_for_backup 600 5 (19 / 20) = (600 * 5) / (19 / 20) := by
  refine ⟨by norm_num, by norm_num, ?_⟩
  exact (c5_energy_formula 600 5 (19 / 20) (by norm_num) (by norm_num)).1

/-- C7: the recommended inverter size is
`max(total_w * 1.3, 1000)` for every total load, and a 600 W load yields the
1000 W floor. -/
theorem c7_inverter_recommendation :
    (∀ total_w : ℚ, recommend_inverter total_w = max (total_w * (13 / 10)) 1000) ∧
    recommend_inverter 600 = 1000 := by
  refine ⟨fun _ => rfl, ?_⟩
  rw [recommend_inverter]
  rw [max_eq_right (by norm_num)]

/-- C1 (code bug evidence): the arithmetic helpers do not validate the
efficiency terms. With inverter efficiency -0.95 the backup-energy helper
returns the ordinary numeric value -60000/19 instead of failing, and with
system efficiency -0.75 the PV helper returns the numeric value -1000; the
spec requires an InvalidConfiguration failure for any efficiency <= 0. -/
theorem c1_negative_efficiency_numeric :
    energy_required_for_backup 600 5 (-(19 / 20)) = -(60000 / 19) ∧
    pv_power_to_charge_energy 3000 4 (-(3 / 4)) = some (-1000) := by
  constructor
  · rw [energy_required_for_backup]
    norm_num
  · rw [pv_power_to_charge_energy]
    norm_num

/-- C2 (code bug evidence): in the example scenario (600 W load, 5 backup
hours, inverter efficiency 0.95, 24 V, DoD 0.8, 200 Ah battery unit) the
sizing chain needs 125/152 of a battery unit, so the purchased count should
be ceil(125/152) = 1 and the battery cost 250000; but the cost section's
`est_batteries` guard tests the never-assigned name `num_batteries`, so the
code's battery cost is 0. -/
theorem c2_battery_cost_always_zero :
    battery_ah_for_voltage (energy_required_for_backup 600 5 (19 / 20)) 24 (4 / 5)
      = some (3125 / 19) ∧
    num_battery_units (3125 / 19) (some 200) = some (125 / 152) ∧
    (⌈(125 : ℚ) / 152⌉ : ℚ) * avg_battery_price = 250000 ∧
    est_battery_cost = 0 := by
  refine ⟨?_, ?_, ?_, ?_⟩
  · rw [energy_required_for_backup, battery_ah_for_voltage]
    norm_num
  · rw [num_battery_units]
    norm_num
  · rw [avg_battery_price]
    rw [show ⌈(125 : ℚ) / 152⌉ = 1 from by
      rw [Int.ceil_eq_iff]
      norm_num]
    norm_num
  · rw [est_battery_cost, est_batteries, avg_battery_price]
    norm_num

/-- C4 counterexample: the claim that the installation component equals
`max(150000, 0.2 * (battery_cost + solar_cost + inverter_cost))` fails when
the equipment subtotal exceeds 750000: with 8 panels needed the subtotal is
1000000, the claimed installation charge would be 200000, but the code adds
a flat 150000 (total 1150000, not 1200000). -/
theorem c4_install_cost_counterexample :
    est_total 8 ≠
      est_battery_cost + est_solar_cost 8 + est_inverter_cost +
        max 150000 ((est_battery_cost + est_solar_cost 8 + est_inverter_cost) * (1 / 5)) := by
  have hsolar : est_solar_cost 8 = 800000 := by
    rw [est_solar_cost, est_panels, avg_panel_price]
    norm_num
  have hbat : est_battery_cost = 0 := by
    rw [est_battery_cost, est_batteries, avg_battery_price]
    norm_num
  have hinv : est_inverter_cost = 200000 := by
    rw [est_inverter_cost, avg_inverter_price]
  rw [est_total, hsolar, hbat, hinv]
  rw [max_eq_right (by norm_num)]
  norm_num

/-- C4 amended: the installation component of the quick cost estimate is the
flat amount 150000 added to the equipment subtotal, independent of the
subtotal; this agrees with `max(150000, 0.2 * subtotal)` exactly when 20% of
the subtotal is at most 150000. -/
theorem c4_install_cost_flat :
    (∀ panels_needed : ℚ,
      est_total panels_needed =
        est_battery_cost + est_solar_cost panels_needed + est_inverter_cost + 150000) ∧
    (∀ panels_needed : ℚ,
      (est_battery_cost + est_solar_cost panels_needed + est_inverter_cost) * (1 / 5)
          ≤ 150000 →
      est_total panels_needed =
        est_battery_cost + est_solar_cost panels_needed + est_inverter_cost +
          max 150000
            ((est_battery_cost + est_solar_cost panels_needed + est_inverter_cost)
              * (1 / 5))) := by
  constructor
  · intro panels_needed
    rw [est_total]
    ring
  · intro panels_needed h
    rw [max_eq_left h, est_total]
    ring

/-- Witness for C4 amended at 3 panels needed: the subtotal is 500000, 20% of
it is 100000 <= 150000, and the flat-150000 total agrees with the max form. -/
theorem c4_install_cost_flat_witness :
    (est_battery_cost + est_solar_cost 3 + est_inverter_cost) * (1 / 5) ≤ 150000 ∧
    est_total 3 =
      est_battery_cost + est_solar_cost 3 + est_inverter_cost +
        max 150000 ((est_battery_cost + est_solar_cost 3 + est_inverter_cost) * (1 / 5)) := by
  have hsub : (est_battery_cost + est_solar_cost 3 + est_inverter_cost) * (1 / 5) ≤ 150000 := by
    rw [est_battery_cost, est_batteries, est_solar_cost, est_panels,
      est_inverter_cost, avg_battery_price, avg_panel_price, avg_inverter_price]
    norm_num
  exact ⟨hsub, c4_install_cost_flat.2 3 hsub⟩

/-- Helper: on strictly positive voltage and depth of discharge the guard of
`battery_ah_for_voltage` is not taken. -/
lemma battery_ah_pos_eq (energy_wh battery_voltage dod : ℚ)
    (hV : 0 < battery_voltage) (hd : 0 < dod) :
    battery_ah_for_voltage energy_wh battery_voltage dod =
      some (energy_wh / (battery_voltage * dod)) := by
  rw [battery_ah_for_voltage, if_neg]
  push_neg
  exact ⟨hV, hd⟩

/-- Helper: on a strictly positive unit capacity the guard of
`num_battery_units` is not taken. -/
lemma num_battery_units_pos_eq (ah_required unit_capacity : ℚ)
    (hc : 0 < unit_capacity) :
    num_battery_units ah_required (some unit_capacity) =
      some (ah_required / unit_capacity) := by
  simp only [num_battery_units]
  rw [if_neg (not_le.mpr hc)]

/-- Helper: on a strictly positive window the guard of
`pv_power_to_charge_energy` is not taken. -/
lemma pv_power_pos_eq (energy_wh desired_hours system_eff : ℚ)
    (hW : 0 < desired_hours) :
    pv_power_to_charge_energy energy_wh desired_hours system_eff =
      some (energy_wh / (desired_hours * system_eff)) := by
  rw [pv_power_to_charge_energy, if_neg (not_le.mpr hW)]

/-- C6: for positive battery voltage, depth of discharge in (0, 1] and
positive unit capacity, the required capacity is
`energy_wh / (battery_voltage * dod)` and the number of battery units is that
capacity divided by the unit capacity, unrounded. -/
theorem c6_battery_sizing_formula (energy_wh battery_voltage dod unit_capacity : ℚ)
    (hV : 0 < battery_voltage) (hd : 0 < dod) (hd1 : dod ≤ 1)
    (hc : 0 < unit_capacity) :
    battery_ah_for_voltage energy_wh battery_voltage dod =
      some (energy_wh / (battery_voltage * dod)) ∧
    num_battery_units (energy_wh / (battery_voltage * dod)) (some unit_capacity) =
      some ((energy_wh / (battery_voltage * dod)) / unit_capacity) :=
  ⟨battery_ah_pos_eq energy_wh battery_voltage dod hV hd,
   num_battery_units_pos_eq (energy_wh / (battery_voltage * dod)) unit_capacity hc⟩

/-- Witness for C6 in the example scenario: energy 60000/19 Wh, 24 V battery,
depth of discharge 4/5, 200 Ah unit. -/
theorem c6_battery_sizing_formula_witness :
    battery_ah_for_voltage (60000 / 19) 24 (4 / 5) =
      some ((60000 / 19) / (24 * (4 / 5))) ∧
    num_battery_units ((60000 / 19) / (24 * (4 / 5))) (some 200) =
      some (((60000 / 19) / (24 * (4 / 5))) / 200) :=
  c6_battery_sizing_formula (60000 / 19) 24 (4 / 5) 200
    (by norm_num) (by norm_num) (by norm_num) (by norm_num)

/-- C8: the sun-hours mode and the fast-recharge mode are the same PV-sizing
function: `pv_power_from_sunhours` returns exactly what
`pv_power_to_charge_energy` returns on the same window, namely
`energy_wh / (window * system_eff)` for any positive window. -/
theorem c8_charge_modes_same_function (energy_wh recharge_window system_eff : ℚ)
    (hW : 0 < recharge_window) :
    pv_power_from_sunhours energy_wh recharge_window system_eff =
      pv_power_to_charge_energy energy_wh recharge_window system_eff ∧
    pv_power_from_sunhours energy_wh recharge_window system_eff =
      some (energy_wh / (recharge_window * system_eff)) :=
  ⟨rfl, pv_power_pos_eq energy_wh recharge_window system_eff hW⟩

/-- Witness for C8 in the example scenario: 60000/19 Wh over 5 sun-hours at
system efficiency 3/4. -/
theorem c8_charge_modes_same_function_witness :
    pv_power_from_sunhours (60000 / 19) 5 (3 / 4) =
      pv_power_to_charge_energy (60000 / 19) 5 (3 / 4) ∧
    pv_power_from_sunhours (60000 / 19) 5 (3 / 4) =
      some ((60000 / 19) / (5 * (3 / 4))) :=
  c8_charge_modes_same_function (60000 / 19) 5 (3 / 4) (by norm_num)

/-- C9: with a positive total load, inverter efficiency in (0, 1], positive
battery voltage, depth of discharge in (0, 1] and positive unit capacity all
held fixed, strictly increasing the backup hours strictly increases the
required energy, the required battery Ah and the battery units needed. -/
theorem c9_backup_hours_monotone
    (total_w inverter_eff battery_voltage dod unit_capacity h1 h2 : ℚ)
    (hw : 0 < total_w) (he : 0 < inverter_eff) (he1 : inverter_eff ≤ 1)
    (hV : 0 < battery_voltage) (hd : 0 < dod) (hd1 : dod ≤ 1)
    (hc : 0 < unit_capacity) (hlt : h1 < h2) :
    energy_required_for_backup total_w h1 inverter_eff <
      energy_required_for_backup total_w h2 inverter_eff ∧
    ∃ a1 a2 u1 u2 : ℚ,
      battery_ah_for_voltage (energy_required_for_backup total_w h1 inverter_eff)
        battery_voltage dod = some a1 ∧
      battery_ah_for_voltage (energy_required_for_backup total_w h2 inverter_eff)
        battery_voltage dod = some a2 ∧
      num_battery_units a1 (some unit_capacity) = some u1 ∧
      num_battery_units a2 (some unit_capacity) = some u2 ∧
      a1 < a2 ∧ u1 < u2 := by
  have hE : energy_required_for_backup total_w h1 inverter_eff <
      energy_required_for_backup total_w h2 inverter_eff := by
    rw [energy_required_for_backup, energy_required_for_backup]
    exact (div_lt_div_iff_of_pos_right he).mpr (mul_lt_mul_of_pos_left hlt hw)
  have hVd : 0 < battery_voltage * dod := mul_pos hV hd
  have ha : energy_required_for_backup total_w h1 inverter_eff / (battery_voltage * dod) <
      energy_required_for_backup total_w h2 inverter_eff / (battery_voltage * dod) :=
    (div_lt_div_iff_of_pos_right hVd).mpr hE
  refine ⟨hE, _, _, _, _,
    battery_ah_pos_eq _ battery_voltage dod hV hd,
    battery_ah_pos_eq _ battery_voltage dod hV hd,
    num_battery_units_pos_eq _ unit_capacity hc,
    num_battery_units_pos_eq _ unit_capacity hc,
    ha, (div_lt_div_iff_of_pos_right hc).mpr ha⟩

/-- Witness for C9: a 600 W load at inverter efficiency 19/20, 24 V, depth of
discharge 4/5, 200 Ah units, comparing 4 against 5 backup hours. -/
theorem c9_backup_hours_monotone_witness :
    energy_required_for_backup 600 4 (19 / 20) <
      energy_required_for_backup 600 5 (19 / 20) ∧
    ∃ a1 a2 u1 u2 : ℚ,
      battery_ah_for_voltage (energy_required_for_backup 600 4 (19 / 20)) 24 (4 / 5)
        = some a1 ∧
      battery_ah_for_voltage (energy_required_for_backup 600 5 (19 / 20)) 24 (4 / 5)
        = some a2 ∧
      num_battery_units a1 (some 200) = some u1 ∧
      num_battery_units a2 (some 200) = some u2 ∧
      a1 < a2 ∧ u1 < u2 :=
  c9_backup_hours_monotone 600 (19 / 20) 24 (4 / 5) 200 4 5
    (by norm_num) (by norm_num) (by norm_num) (by norm_num)
    (by norm_num) (by norm_num) (by norm_num) (by norm_num)

/-- C10: the sizing helpers signal invalid parameters by returning `None`
rather than a number: `battery_ah_for_voltage` is `None` exactly when the
voltage or the depth of discharge is at most 0, `num_battery_units` is `None`
exactly when the unit capacity is absent or at most 0,
`pv_power_to_charge_energy` is `None` exactly when the window is at most 0,
and `mppt_current_for_pv` is `None` exactly when the voltage is at most 0;
in every other case (with a nonzero divisor) each returns its formula. -/
theorem c10_none_signaling :
    (∀ energy_wh battery_voltage dod : ℚ,
      battery_ah_for_voltage energy_wh battery_voltage dod = none ↔
        battery_voltage ≤ 0 ∨ dod ≤ 0) ∧
    (∀ energy_wh battery_voltage dod : ℚ, 0 < battery_voltage → 0 < dod →
      battery_ah_for_voltage energy_wh battery_voltage dod =
        some (energy_wh / (battery_voltage * dod))) ∧
    (∀ ah_required : ℚ, num_battery_units ah_required none = none) ∧
    (∀ ah_required unit_capacity : ℚ,
      num_battery_units ah_required (some unit_capacity) = none ↔
        unit_capacity ≤ 0) ∧
    (∀ ah_required unit_capacity : ℚ, 0 < unit_capacity →
      num_battery_units ah_required (some unit_capacity) =
        some (ah_required / unit_capacity)) ∧
    (∀ energy_wh desired_hours system_eff : ℚ,
      pv_power_to_charge_energy energy_wh desired_hours system_eff = none ↔
        desired_hours ≤ 0) ∧
    (∀ energy_wh desired_hours system_eff : ℚ, 0 < desired_hours →
      system_eff ≠ 0 →
      pv_power_to_charge_energy energy_wh desired_hours system_eff =
        some (energy_wh / (desired_hours * system_eff))) ∧
    (∀ pv_power_w battery_voltage safety_factor : ℚ,
      mppt_current_for_pv pv_power_w battery_voltage safety_factor = none ↔
        battery_voltage ≤ 0) ∧
    (∀ pv_power_w battery_voltage safety_factor : ℚ, 0 < battery_voltage →
      mppt_current_for_pv pv_power_w battery_voltage safety_factor =
        some ((pv_power_w / battery_voltage) * safety_factor)) := by
  refine ⟨?_, ?_, ?_, ?_, ?_, ?_, ?_, ?_, ?_⟩
  · intro energy_wh battery_voltage dod
    rw [battery_ah_for_voltage]
    by_cases hg : battery_voltage ≤ 0 ∨ dod ≤ 0 <;> simp [hg]
  · intro energy_wh battery_voltage dod hV hd
    exact battery_ah_pos_eq energy_wh battery_voltage dod hV hd
  · intro ah_required
    rfl
  · intro ah_required unit_capacity
    simp only [num_battery_units]
    by_cases hg : unit_capacity ≤ 0 <;> simp [hg]
  · intro ah_required unit_capacity hc
    exact num_battery_units_pos_eq ah_required unit_capacity hc
  · intro energy_wh desired_hours system_eff
    rw [pv_power_to_charge_energy]
    by_cases hg : desired_hours ≤ 0 <;> simp [hg]
  · intro energy_wh desired_hours system_eff hW _
    exact pv_power_pos_eq energy_wh desired_hours system_eff hW
  · intro pv_power_w battery_voltage safety_factor
    rw [mppt_current_for_pv]
    by_cases hg : battery_voltage ≤ 0 <;> simp [hg]
  · intro pv_power_w battery_voltage safety_factor hV
    rw [mppt_current_for_pv, if_neg (not_le.mpr hV)]

/-- Witness for C10, evaluating each helper on one invalid and one valid
input: voltage 0 and voltage 24 for the battery formula, capacity 0 and 200
for the unit count, window 0 and 4 for the PV formula, voltage 0 and 24 for
the controller current. -/
theorem c10_none_signaling_witness :
    battery_ah_for_voltage 3000 0 (4 / 5) = none ∧
    battery_ah_for_voltage 3000 24 (4 / 5) = some (3000 / (24 * (4 / 5))) ∧
    num_battery_units 150 (some 0) = none ∧
    num_battery_units 150 (some 200) = some (150 / 200) ∧
    pv_power_to_charge_energy 3000 0 (3 / 4) = none ∧
    pv_power_to_charge_energy 3000 4 (3 / 4) = some (3000 / (4 * (3 / 4))) ∧
    mppt_current_for_pv 1000 0 (5 / 4) = none ∧
    mppt_current_for_pv 1000 24 (5 / 4) = some ((1000 / 24) * (5 / 4)) :=
  ⟨(c10_none_signaling.1 3000 0 (4 / 5)).mpr (Or.inl le_rfl),
   c10_none_signaling.2.1 3000 24 (4 / 5) (by norm_num) (by norm_num),
   (c10_none_signaling.2.2.2.1 150 0).mpr le_rfl,
   c10_none_signaling.2.2.2.2.1 150 200 (by norm_num),
   (c10_none_signaling.2.2.2.2.2.1 3000 0 (3 / 4)).mpr le_rfl,
   c10_none_signaling.2.2.2.2.2.2.1 3000 4 (3 / 4) (by norm_num) (by norm_num),
   (c10_none_signaling.2.2.2.2.2.2.2.1 1000 0 (5 / 4)).mpr le_rfl,
   c10_none_signaling.2.2.2.2.2.2.2.2 1000 24 (5 / 4) (by norm_num)⟩
